import Mathlib

/-!
Verification development for the switch-pico firmware (a Raspberry Pi Pico
presenting itself as a Switch Pro controller over USB HID, fed by UART).

The definitions below are a shallow embedding of the C++ sources
`src/switch_pro_driver.cpp` and `src/switch-pico.cpp`: machine integers are
modelled as `Nat` with explicit truncation (`% 2 ^ w`) where the C code relies
on wrap-around, byte buffers as `List Nat`, the `std::map` flash directory as a
total function into `Option`, and the tick procedure `switch_pro_task` as an
explicit state-transition function that also returns the list of HID transfers
handed to the transport during the tick.  Values that live in the descriptor
header (which is not part of the sources at hand) are modelled from the spec
and marked as such in their doc comments.
-/

/-- Modelled from the spec: the joystick midpoint of the 16-bit axis range
(`SWITCH_PRO_JOYSTICK_MID` lives in the descriptor header, absent from the
sources); the spec fixes the axes as unsigned 16-bit samples centered at the
midpoint value. -/
def SWITCH_PRO_JOYSTICK_MID : Nat := 0x8000

/-- Modelled from the spec: the 8-direction hat enumeration plus neutral
(`SWITCH_PRO_HAT_*` live in the descriptor header, absent from the sources);
the standard Switch encoding counts clockwise from up, with 8 as neutral. -/
def SWITCH_PRO_HAT_UP : Nat := 0

/-- Modelled from the spec: hat code for up-right. -/
def SWITCH_PRO_HAT_UPRIGHT : Nat := 1

/-- Modelled from the spec: hat code for right. -/
def SWITCH_PRO_HAT_RIGHT : Nat := 2

/-- Modelled from the spec: hat code for down-right. -/
def SWITCH_PRO_HAT_DOWNRIGHT : Nat := 3

/-- Modelled from the spec: hat code for down. -/
def SWITCH_PRO_HAT_DOWN : Nat := 4

/-- Modelled from the spec: hat code for down-left. -/
def SWITCH_PRO_HAT_DOWNLEFT : Nat := 5

/-- Modelled from the spec: hat code for left. -/
def SWITCH_PRO_HAT_LEFT : Nat := 6

/-- Modelled from the spec: hat code for up-left. -/
def SWITCH_PRO_HAT_UPLEFT : Nat := 7

/-- Modelled from the spec: hat code for neutral (no direction pressed). -/
def SWITCH_PRO_HAT_NOTHING : Nat := 8

/-- Modelled from the spec: fixed button bit positions of the 16-bit mask
(`SWITCH_PRO_MASK_*` live in the descriptor header, absent from the sources);
the standard Switch assignment. -/
def SWITCH_PRO_MASK_Y : Nat := 0x0001

/-- Modelled from the spec: bit mask of button B. -/
def SWITCH_PRO_MASK_B : Nat := 0x0002

/-- Modelled from the spec: bit mask of button A. -/
def SWITCH_PRO_MASK_A : Nat := 0x0004

/-- Modelled from the spec: bit mask of button X. -/
def SWITCH_PRO_MASK_X : Nat := 0x0008

/-- Modelled from the spec: bit mask of button L. -/
def SWITCH_PRO_MASK_L : Nat := 0x0010

/-- Modelled from the spec: bit mask of button R. -/
def SWITCH_PRO_MASK_R : Nat := 0x0020

/-- Modelled from the spec: bit mask of button ZL. -/
def SWITCH_PRO_MASK_ZL : Nat := 0x0040

/-- Modelled from the spec: bit mask of button ZR. -/
def SWITCH_PRO_MASK_ZR : Nat := 0x0080

/-- Modelled from the spec: bit mask of the minus button. -/
def SWITCH_PRO_MASK_MINUS : Nat := 0x0100

/-- Modelled from the spec: bit mask of the plus button. -/
def SWITCH_PRO_MASK_PLUS : Nat := 0x0200

/-- Modelled from the spec: bit mask of the left stick click. -/
def SWITCH_PRO_MASK_L3 : Nat := 0x0400

/-- Modelled from the spec: bit mask of the right stick click. -/
def SWITCH_PRO_MASK_R3 : Nat := 0x0800

/-- Modelled from the spec: bit mask of the home button. -/
def SWITCH_PRO_MASK_HOME : Nat := 0x1000

/-- Modelled from the spec: bit mask of the capture button. -/
def SWITCH_PRO_MASK_CAPTURE : Nat := 0x2000

/-- The `SwitchInputState` record of `switch_pro_driver.h`: 4 dpad flags,
14 button flags and 4 unsigned 16-bit axis samples. -/
structure SwitchInputState where
  dpad_up : Bool
  dpad_down : Bool
  dpad_left : Bool
  dpad_right : Bool
  button_a : Bool
  button_b : Bool
  button_x : Bool
  button_y : Bool
  button_l : Bool
  button_r : Bool
  button_zl : Bool
  button_zr : Bool
  button_plus : Bool
  button_minus : Bool
  button_home : Bool
  button_capture : Bool
  button_l3 : Bool
  button_r3 : Bool
  lx : Nat
  ly : Nat
  rx : Nat
  ry : Nat
deriving Repr, DecidableEq

/-- `make_neutral_state` of `switch_pro_driver.cpp`: everything false, axes at
the midpoint. -/
def make_neutral_state : SwitchInputState :=
  { dpad_up := false, dpad_down := false, dpad_left := false, dpad_right := false
    button_a := false, button_b := false, button_x := false, button_y := false
    button_l := false, button_r := false, button_zl := false, button_zr := false
    button_plus := false, button_minus := false, button_home := false
    button_capture := false, button_l3 := false, button_r3 := false
    lx := SWITCH_PRO_JOYSTICK_MID, ly := SWITCH_PRO_JOYSTICK_MID
    rx := SWITCH_PRO_JOYSTICK_MID, ry := SWITCH_PRO_JOYSTICK_MID }

/-- The `expand_axis` lambda inside `switch_pro_apply_uart_packet`:
`static_cast<uint16_t>(v) << 8 | v`. -/
def expand_axis (v : Nat) : Nat := (v <<< 8) ||| v

/-- The hat `switch` inside `switch_pro_apply_uart_packet`: each of the eight
direction codes sets its dpad flags on the given state, anything else (the
neutral code included) leaves them untouched. -/
def apply_hat (hat : Nat) (s : SwitchInputState) : SwitchInputState :=
  if hat = SWITCH_PRO_HAT_UP then { s with dpad_up := true }
  else if hat = SWITCH_PRO_HAT_UPRIGHT then { s with dpad_up := true, dpad_right := true }
  else if hat = SWITCH_PRO_HAT_RIGHT then { s with dpad_right := true }
  else if hat = SWITCH_PRO_HAT_DOWNRIGHT then { s with dpad_down := true, dpad_right := true }
  else if hat = SWITCH_PRO_HAT_DOWN then { s with dpad_down := true }
  else if hat = SWITCH_PRO_HAT_DOWNLEFT then { s with dpad_down := true, dpad_left := true }
  else if hat = SWITCH_PRO_HAT_LEFT then { s with dpad_left := true }
  else if hat = SWITCH_PRO_HAT_UPLEFT then { s with dpad_up := true, dpad_left := true }
  else s

/-- `switch_pro_apply_uart_packet` of `switch_pro_driver.cpp` (the out-state
path): reject packets shorter than 8 bytes or not led by the 0xAA sentinel,
otherwise decode the little-endian button mask, the hat byte and the four
bit-replicated axis bytes into a fresh input state. -/
def switch_pro_apply_uart_packet (packet : List Nat) (length : Nat) :
    Option SwitchInputState :=
  if length < 8 || packet.getD 0 0 != 0xAA then none
  else
    let buttons := packet.getD 1 0 ||| (packet.getD 2 0 <<< 8)
    let hat := packet.getD 3 0
    let s0 := apply_hat hat make_neutral_state
    some { s0 with
      button_y := (buttons &&& SWITCH_PRO_MASK_Y) != 0
      button_x := (buttons &&& SWITCH_PRO_MASK_X) != 0
      button_b := (buttons &&& SWITCH_PRO_MASK_B) != 0
      button_a := (buttons &&& SWITCH_PRO_MASK_A) != 0
      button_r := (buttons &&& SWITCH_PRO_MASK_R) != 0
      button_zr := (buttons &&& SWITCH_PRO_MASK_ZR) != 0
      button_plus := (buttons &&& SWITCH_PRO_MASK_PLUS) != 0
      button_minus := (buttons &&& SWITCH_PRO_MASK_MINUS) != 0
      button_r3 := (buttons &&& SWITCH_PRO_MASK_R3) != 0
      button_l3 := (buttons &&& SWITCH_PRO_MASK_L3) != 0
      button_home := (buttons &&& SWITCH_PRO_MASK_HOME) != 0
      button_capture := (buttons &&& SWITCH_PRO_MASK_CAPTURE) != 0
      button_zl := (buttons &&& SWITCH_PRO_MASK_ZL) != 0
      button_l := (buttons &&& SWITCH_PRO_MASK_L) != 0
      lx := expand_axis (packet.getD 4 0)
      ly := expand_axis (packet.getD 5 0)
      rx := expand_axis (packet.getD 6 0)
      ry := expand_axis (packet.getD 7 0) }

/-- Modelled from the spec: the length-delimited "current input frame" decoder
is not present in the sources at hand (the spec notes evolving main-loop
revisions and treats the fixed 8-byte frame as its degenerate case); following
the spec it accepts `[0xAA][version][payloadLen][payload...][trailer]` whose
total length `payloadLen + 4` fits the buffer capacity and meets the minimum
total size of 8, returning the version byte and payload, and rejects anything
else so the stream scanner discards the bytes and resynchronizes. -/
def decodeCurrentFrame (buf : List Nat) (capacity : Nat) : Option (Nat × List Nat) :=
  match buf with
  | sentinel :: version :: plen :: rest =>
    if sentinel == 0xAA && plen + 4 ≤ capacity && 8 ≤ plen + 4
        && rest.length == plen + 1 then
      some (version, rest.take plen)
    else none
  | _ => none

/-- The dpad mapping table of spec section 4.1, stated independently of the
decoder as `(up, down, left, right)` quadruples. -/
def hatTable (hat : Nat) : Bool × Bool × Bool × Bool :=
  if hat = 0 then (true, false, false, false)
  else if hat = 1 then (true, false, false, true)
  else if hat = 2 then (false, false, false, true)
  else if hat = 3 then (false, true, false, true)
  else if hat = 4 then (false, true, false, false)
  else if hat = 5 then (false, true, true, false)
  else if hat = 6 then (false, false, true, false)
  else if hat = 7 then (true, false, true, false)
  else (false, false, false, false)

/-- The explicit bytes of the `factory_config_data[0xEFF]` initializer in
`switch_pro_driver.cpp` (the device-type entry is `SWITCH_TYPE_PRO_CONTROLLER`
from the descriptor header, modelled from the spec's controller-type byte as
the standard value 0x03). -/
def factory_config_bytes : List Nat := [
  0xFF, 0xFF, 0xFF, 0xFF, 0xFF, 0xFF, 0xFF, 0xFF, 0xFF, 0xFF, 0xFF, 0xFF, 0xFF, 0xFF, 0xFF, 0xFF,
  0xFF, 0xFF, 0x03, 0xA0, 0xFF, 0xFF, 0xFF, 0xFF, 0xFF, 0xFF, 0xFF, 0x02, 0xFF, 0xFF, 0xFF, 0xFF,
  0xE3, 0xFF, 0x39, 0xFF, 0xED, 0x01, 0x00, 0x40, 0x00, 0x40, 0x00, 0x40, 0x09, 0x00, 0xEA, 0xFF,
  0xA1, 0xFF, 0x3B, 0x34, 0x3B, 0x34, 0x3B, 0x34, 0xFF, 0xFF, 0xFF, 0xFF, 0xFF, 0xA4, 0x46, 0x6A,
  0x00, 0x08, 0x80, 0xA4, 0x46, 0x6A, 0x00, 0x08, 0x80, 0xA4, 0x46, 0x6A, 0xA4, 0x46, 0x6A, 0xFF,
  0x1B, 0x1B, 0x1D, 0xFF, 0xFF, 0xFF, 0xEC, 0x00, 0x8C, 0xEC, 0x00, 0x8C, 0x01, 0xFF, 0xFF, 0xFF,
  0xFF, 0xFF, 0xFF, 0xFF, 0xFF, 0xFF, 0xFF, 0xFF, 0xFF, 0xFF, 0xFF, 0xFF, 0xFF, 0xFF, 0xFF, 0xFF,
  0xFF, 0xFF, 0xFF, 0xFF, 0xFF, 0xFF, 0xFF, 0xFF, 0xFF, 0xFF, 0xFF, 0xFF, 0xFF, 0xFF, 0xFF, 0xFF,
  0x50, 0xFD, 0x00, 0x00, 0xC6, 0x0F, 0x0F, 0x30, 0x61, 0xAE, 0x90, 0xD9, 0xD4, 0x14, 0x54, 0x41,
  0x15, 0x54, 0xC7, 0x79, 0x9C, 0x33, 0x36, 0x63, 0x0F, 0x30, 0x61, 0xAE, 0x90, 0xD9, 0xD4, 0x14,
  0x54, 0x41, 0x15, 0x54, 0xC7, 0x79, 0x9C, 0x33, 0x36, 0x63, 0xFF, 0xFF, 0xFF, 0xFF, 0xFF, 0xFF]

/-- `factory_config_data` of `switch_pro_driver.cpp`: a 0xEFF-byte array whose
initializer lists 176 bytes; C++ zero-fills the remainder. -/
def factory_config_data : List Nat :=
  factory_config_bytes ++ List.replicate (0xEFF - 176) 0

/-- `user_calibration_data` of `switch_pro_driver.cpp`: a 0x3F-byte array whose
initializer lists 54 bytes; C++ zero-fills the remainder. -/
def user_calibration_data : List Nat :=
  [
  0xFF, 0xFF, 0xFF, 0xFF, 0xFF, 0xFF, 0xFF, 0xFF, 0xFF, 0xFF, 0xFF, 0xFF, 0xFF, 0xFF, 0xFF, 0xFF,
  0xB2, 0xA1, 0xA4, 0x46, 0x6A, 0x00, 0x08, 0x80, 0xA4, 0x46, 0x6A, 0xB2, 0xA1, 0x00, 0x08, 0x80,
  0xA4, 0x46, 0x6A, 0xA4, 0x46, 0x6A, 0xFF, 0xFF, 0xFF, 0xFF, 0xFF, 0xFF, 0xFF, 0xFF, 0xFF, 0xFF,
  0xFF, 0xFF, 0xFF, 0xFF, 0xFF, 0xFF] ++ List.replicate (0x3F - 54) 0

/-- `spi_flash_data` of `switch_pro_driver.cpp`: the bank directory of the
virtual flash, a `std::map` from the two aligned bank addresses to their
backing blobs, modelled as a total lookup into `Option`. -/
def spi_flash_data (bank : Nat) : Option (List Nat) :=
  if bank = 0x6000 then some factory_config_data
  else if bank = 0x8000 then some user_calibration_data
  else none

/-- `read_spi_flash` of `switch_pro_driver.cpp`: split the address into the
bank (low 8 bits masked off) and the offset (low 8 bits); a mapped bank copies
`size` bytes from the blob at the offset (`memcpy` can only yield bytes that
exist in the blob, which the take/drop slice captures), an unmapped bank
fills the destination with 0xFF for the full requested size. -/
def read_spi_flash (address : Nat) (size : Nat) : List Nat :=
  let addressBank := address &&& 0xFFFFFF00
  let addressOffset := address &&& 0x000000FF
  match spi_flash_data addressBank with
  | some data => (data.drop addressOffset).take size
  | none => List.replicate size 0xFF

/-- `scale16To12` of `switch_pro_driver.cpp`: right-shift a raw 16-bit axis
sample by 4 into the 12-bit wire domain. -/
def scale16To12 (pos : Nat) : Nat := pos >>> 4

/-- The `std::min(std::max(v, lo), hi)` clamp applied to each scaled stick
sample in `update_switch_report_from_state`. -/
def clamp_axis (lo hi v : Nat) : Nat := min (max v lo) hi

/-- Truncating unsigned 16-bit negation: the value produced when the C++
unary minus of a `uint16_t` is converted back to `uint16_t`, as happens to
the clamped Y samples passed into `setY`. -/
def neg16 (v : Nat) : Nat := (65536 - v % 65536) % 65536

/-- The per-stick calibration bounds `leftMinX .. rightMaxY` of
`switch_pro_driver.cpp` that `update_switch_report_from_state` clamps with.
Their values are produced at startup by `getRealMin`/`getRealMax` of the
descriptor header, absent from the sources; the spec guarantees the
`CalibrationRange` invariant min ≤ center ≤ max for them. -/
structure StickCalibration where
  leftMinX : Nat
  leftMinY : Nat
  leftMaxX : Nat
  leftMaxY : Nat
  rightMinX : Nat
  rightMinY : Nat
  rightMaxX : Nat
  rightMaxY : Nat
deriving Repr, DecidableEq

/-- The four values handed to `setX`/`setY` on the report's stick fields. -/
structure StickWireValues where
  leftX : Nat
  leftY : Nat
  rightX : Nat
  rightY : Nat
deriving Repr, DecidableEq

/-- The stick portion of `update_switch_report_from_state` in
`switch_pro_driver.cpp`: scale each raw axis into the 12-bit domain, clamp to
the calibration bounds, and negate the Y samples (16-bit truncating minus)
before they reach `setY`. -/
def update_switch_report_sticks (cal : StickCalibration) (st : SwitchInputState) :
    StickWireValues :=
  let scaleLeftStickX := scale16To12 st.lx
  let scaleLeftStickY := scale16To12 st.ly
  let scaleRightStickX := scale16To12 st.rx
  let scaleRightStickY := scale16To12 st.ry
  { leftX := clamp_axis cal.leftMinX cal.leftMaxX scaleLeftStickX
    leftY := neg16 (clamp_axis cal.leftMinY cal.leftMaxY scaleLeftStickY)
    rightX := clamp_axis cal.rightMinX cal.rightMaxX scaleRightStickX
    rightY := neg16 (clamp_axis cal.rightMinY cal.rightMaxY scaleRightStickY) }

/-- `send_rumble_uart_frame` of `switch-pico.cpp`: build the 11-byte UART
frame — header 0xBB, type 0x01, the 8 payload bytes, then the checksum byte
accumulated with 8-bit truncating addition over the first 10 bytes. -/
def send_rumble_uart_frame (rumble : List Nat) : List Nat :=
  let frame10 := 0xBB :: 0x01 :: rumble.take 8
  let checksum := frame10.foldl (fun c b => (c + b) % 256) 0
  frame10 ++ [checksum]

/-- A HID transfer successfully handed to the TinyUSB transport during one
invocation of `switch_pro_task`: a queued command reply (sent from
`report_buffer` under the queued report id), a periodic input report (the
64-byte `switch_report` image), or the one-shot bring-up identify report. -/
inductive HidEvent where
  | reply (id : Nat) (payload : List Nat)
  | identReport (payload : List Nat)
  | inputReport (payload : List Nat)
deriving Repr, DecidableEq

/-- Whether an event is a periodic input report. -/
def HidEvent.isInput : HidEvent → Bool
  | .inputReport _ => true
  | _ => false

/-- `SWITCH_PRO_KEEPALIVE_TIMER` of `switch_pro_driver.cpp`. -/
def SWITCH_PRO_KEEPALIVE_TIMER : Nat := 5

/-- 32-bit truncating subtraction, as performed on the `uint32_t` millisecond
timestamps in `now - last_report_timer`. -/
def u32sub (a b : Nat) : Nat :=
  (a % 4294967296 + (4294967296 - b % 4294967296)) % 4294967296

/-- The rolling counter step in `send_report`: increment `last_report_counter`
below 255, wrap to 0 at 255. -/
def inc_counter (c : Nat) : Nat := if c < 255 then c + 1 else 0

/-- The mutable driver globals of `switch_pro_driver.cpp` that
`switch_pro_task` reads and writes.  `switch_report` is represented by its
byte image: report id 0x30, then the timestamp byte (`sr_timestamp`), then the
remaining bytes (`device_ident` stands for the identify image that
`send_identify` deposits into `report_buffer`). -/
structure DriverState where
  is_ready : Bool
  is_initialized : Bool
  is_report_queued : Bool
  queued_report_id : Nat
  report_buffer : List Nat
  last_report : List Nat
  last_report_counter : Nat
  last_report_timer : Nat
  sr_timestamp : Nat
  device_ident : List Nat
deriving Repr, DecidableEq

/-- The byte image of `switch_report` as compared and transmitted by
`switch_pro_task`: report id 0x30, the timestamp byte, then the body bytes
rebuilt each tick from the current `SwitchInputState`. -/
def mkWireReport (timestamp : Nat) (body : List Nat) : List Nat :=
  0x30 :: timestamp :: body

/-- `switch_pro_task` of `switch_pro_driver.cpp` as a state-transition
function.  Inputs of the tick: the millisecond clock `now`, whether
`tud_hid_ready()` holds (`hidReady`), whether the underlying
`tud_hid_report` hand-off succeeds (`sendOk`), and the body bytes of the
freshly rebuilt `switch_report` (`update_switch_report_from_state` runs at
the top of every tick).  Returns the successor state and the transfers
handed to the transport; `report_sent` is the local flag reset at the top
of the source function, folded into the control flow here.

Faithful details: a queued reply that is due is dequeued whether or not the
transport was ready; `send_report` bumps the rolling counter exactly when it
is called (transport ready), succeed or fail; the periodic branch stamps the
counter into the timestamp byte before the byte-for-byte comparison with
`last_report` and snapshots the image only on a successful send; the
bring-up identify branch runs when the tick reached neither of the first two
sends (`!(is_ready && !report_sent)`) and the driver is not initialized. -/
def switch_pro_task (now : Nat) (hidReady sendOk : Bool) (body : List Nat)
    (s : DriverState) : DriverState × List HidEvent :=
  if s.is_report_queued then
    -- report_sent becomes true: the periodic branch is skipped this tick.
    let step :=
      if u32sub now s.last_report_timer > SWITCH_PRO_KEEPALIVE_TIMER then
        let events := if hidReady && sendOk then
            [HidEvent.reply s.queued_report_id s.report_buffer] else []
        let counter := if hidReady then inc_counter s.last_report_counter
          else s.last_report_counter
        ({ s with is_report_queued := false, last_report_timer := now,
                  last_report_counter := counter }, events)
      else (s, [])
    let s1 := step.1
    if s1.is_initialized then step
    else
      let s2 := { s1 with report_buffer := s1.device_ident }
      if hidReady && sendOk then
        ({ s2 with is_initialized := true, last_report_timer := now },
          step.2 ++ [HidEvent.identReport s2.device_ident])
      else ({ s2 with last_report_timer := now }, step.2)
  else if s.is_ready then
    if u32sub now s.last_report_timer > SWITCH_PRO_KEEPALIVE_TIMER then
      let s1 := { s with sr_timestamp := s.last_report_counter }
      let report := mkWireReport s.last_report_counter body
      if report ≠ s.last_report then
        if hidReady && sendOk then
          ({ s1 with last_report := report,
                     last_report_counter := inc_counter s.last_report_counter,
                     last_report_timer := now }, [HidEvent.inputReport report])
        else
          ({ s1 with last_report_counter := if hidReady then
                       inc_counter s.last_report_counter
                     else s.last_report_counter,
                     last_report_timer := now }, [])
      else (s1, [])
    else (s, [])
  else
    if s.is_initialized then (s, [])
    else
      let s2 := { s with report_buffer := s.device_ident }
      if hidReady && sendOk then
        ({ s2 with is_initialized := true, last_report_timer := now },
          [HidEvent.identReport s2.device_ident])
      else ({ s2 with last_report_timer := now }, [])

/-- Iterate `switch_pro_task` over a list of ticks, each tick supplying the
clock and the two transport outcomes, with a fixed (unchanged) input-state
body; collect every transfer handed to the transport. -/
def runTicks (ticks : List (Nat × Bool × Bool)) (body : List Nat)
    (s : DriverState) : DriverState × List HidEvent :=
  ticks.foldl (fun acc t =>
    let step := switch_pro_task t.1 t.2.1 t.2.2 body acc.1
    (step.1, acc.2 ++ step.2)) (s, [])

/-- Joining a low byte with a shifted high byte is little-endian place-value
addition. -/
theorem lor_shiftLeft_byte (lo hi : Nat) (h : lo < 256) :
    lo ||| hi <<< 8 = lo + 256 * hi := by
  apply Nat.eq_of_testBit_eq
  intro i
  rw [Nat.testBit_lor, Nat.testBit_shiftLeft]
  rcases Nat.lt_or_ge i 8 with hlt | hge
  · have hd : (decide (i ≥ 8) && hi.testBit (i - 8)) = false := by
      simp
      omega
    rw [hd, Bool.or_false]
    have hpow : 2 ^ i * 2 ^ (8 - i) = 256 := by
      rw [← pow_add]
      have h8 : i + (8 - i) = 8 := by omega
      rw [h8]
      norm_num
    have hrepr : lo + 256 * hi = lo + 2 ^ i * (2 ^ (8 - i) * hi) := by
      rw [← Nat.mul_assoc, hpow]
    rw [Nat.testBit_to_div_mod, Nat.testBit_to_div_mod, hrepr,
      Nat.add_mul_div_left _ _ (Nat.pos_pow_of_pos i (by norm_num))]
    have heven : (2 ^ (8 - i) * hi) % 2 = 0 := by
      have e : (8 - i) = (7 - i) + 1 := by omega
      rw [e, pow_succ, Nat.mul_assoc, Nat.mul_comm (2 : Nat), ← Nat.mul_assoc]
      exact Nat.mul_mod_left _ 2
    have hmod : (lo / 2 ^ i + 2 ^ (8 - i) * hi) % 2 = lo / 2 ^ i % 2 := by
      omega
    rw [hmod]
  · have hlo : lo.testBit i = false := by
      apply Nat.testBit_lt_two_pow
      calc lo < 256 := h
        _ ≤ 2 ^ i := by
            have : (256 : Nat) = 2 ^ 8 := by norm_num
            rw [this]
            exact Nat.pow_le_pow_right (by norm_num) hge
    rw [hlo, Bool.false_or]
    have hd : (decide (i ≥ 8) : Bool) = true := by simp [hge]
    rw [hd, Bool.true_and]
    have hsplit : 2 ^ i = 256 * 2 ^ (i - 8) := by
      have h256 : (256 : Nat) = 2 ^ 8 := by norm_num
      rw [h256, ← pow_add]
      have h8 : 8 + (i - 8) = i := by omega
      rw [h8]
    have hq : (lo + 256 * hi) / 256 = hi := by
      rw [Nat.add_mul_div_left _ _ (by norm_num : (0:Nat) < 256),
        Nat.div_eq_of_lt h, Nat.zero_add]
    rw [Nat.testBit_to_div_mod, Nat.testBit_to_div_mod, hsplit,
      ← Nat.div_div_eq_div_mul, hq]

/-- Bit replication of a byte is multiplication by 257. -/
theorem expand_axis_eq (v : Nat) (h : v < 256) : expand_axis v = 257 * v := by
  unfold expand_axis
  rw [Nat.lor_comm, lor_shiftLeft_byte v v h]
  omega

/-- Folding 8-bit truncating addition over a list computes the sum modulo 256. -/
theorem foldl_mod256_add (l : List Nat) :
    ∀ c, c < 256 → l.foldl (fun a b => (a + b) % 256) c = (c + l.sum) % 256 := by
  induction l with
  | nil =>
    intro c hc
    simp [Nat.mod_eq_of_lt hc]
  | cons b t ih =>
    intro c hc
    rw [List.foldl_cons, List.sum_cons,
      ih ((c + b) % 256) (Nat.mod_lt _ (by norm_num))]
    omega

/-- The slice `memcpy` produces: its length and its bytes. -/
theorem drop_take_getD (l : List Nat) (off size i : Nat) (hi : i < size) :
    ((l.drop off).take size).getD i 0 = l.getD (off + i) 0 := by
  rw [List.getD_eq_getElem?_getD, List.getD_eq_getElem?_getD,
    List.getElem?_take, if_pos hi, List.getElem?_drop]

/-- The slice `memcpy` produces has exactly the requested length when the read
stays inside the blob. -/
theorem drop_take_length (l : List Nat) (off size : Nat)
    (hbound : off + size ≤ l.length) :
    ((l.drop off).take size).length = size := by
  rw [List.length_take, List.length_drop]
  omega

/-- The source clamp lands in the calibration interval whenever the interval
is nonempty. -/
theorem clamp_axis_mem (lo hi v : Nat) (h : lo ≤ hi) :
    lo ≤ clamp_axis lo hi v ∧ clamp_axis lo hi v ≤ hi := by
  unfold clamp_axis
  constructor
  · exact le_min (le_max_right v lo) h
  · exact min_le_right _ _

/-- The rolling counter never reproduces its previous value after one step. -/
theorem inc_counter_ne (c : Nat) : inc_counter c ≠ c := by
  unfold inc_counter
  split <;> omega

/-- Hat codes at or beyond the neutral code leave the state untouched (the
`default` arm of the hat switch). -/
theorem apply_hat_of_ge (hat : Nat) (s : SwitchInputState) (h : 8 ≤ hat) :
    apply_hat hat s = s := by
  have h0 : ¬ hat = 0 := by omega
  have h1 : ¬ hat = 1 := by omega
  have h2 : ¬ hat = 2 := by omega
  have h3 : ¬ hat = 3 := by omega
  have h4 : ¬ hat = 4 := by omega
  have h5 : ¬ hat = 5 := by omega
  have h6 : ¬ hat = 6 := by omega
  have h7 : ¬ hat = 7 := by omega
  simp [apply_hat, SWITCH_PRO_HAT_UP, SWITCH_PRO_HAT_UPRIGHT, SWITCH_PRO_HAT_RIGHT,
    SWITCH_PRO_HAT_DOWNRIGHT, SWITCH_PRO_HAT_DOWN, SWITCH_PRO_HAT_DOWNLEFT,
    SWITCH_PRO_HAT_LEFT, SWITCH_PRO_HAT_UPLEFT, h0, h1, h2, h3, h4, h5, h6, h7]

/-- The dpad flags the hat switch leaves on a neutral state agree with the
mapping table `hatTable`. -/
theorem apply_hat_dpad (hat : Nat) :
    (apply_hat hat make_neutral_state).dpad_up = (hatTable hat).1 ∧
    (apply_hat hat make_neutral_state).dpad_down = (hatTable hat).2.1 ∧
    (apply_hat hat make_neutral_state).dpad_left = (hatTable hat).2.2.1 ∧
    (apply_hat hat make_neutral_state).dpad_right = (hatTable hat).2.2.2 := by
  rcases Nat.lt_or_ge hat 9 with h | h
  · interval_cases hat <;> exact ⟨rfl, rfl, rfl, rfl⟩
  · rw [apply_hat_of_ge hat _ (by omega)]
    have h0 : ¬ hat = 0 := by omega
    have h1 : ¬ hat = 1 := by omega
    have h2 : ¬ hat = 2 := by omega
    have h3 : ¬ hat = 3 := by omega
    have h4 : ¬ hat = 4 := by omega
    have h5 : ¬ hat = 5 := by omega
    have h6 : ¬ hat = 6 := by omega
    have h7 : ¬ hat = 7 := by omega
    simp [hatTable, make_neutral_state, h0, h1, h2, h3, h4, h5, h6, h7]

/-- Claim C8: for every 8-bit axis byte value, the decoder's expanded 16-bit
axis value equals the byte in both the high and the low place (little-endian
place value `256 * v + v`, i.e. `(v<<8)|v`); 0x00 maps to 0, 0xFF maps to
65535, and the expansion is monotonic. -/
theorem claim_C8 (v₁ v₂ : Nat) (h₁ : v₁ < 256) (h₂ : v₂ < 256) (hle : v₁ ≤ v₂) :
    expand_axis v₁ = 256 * v₁ + v₁ ∧ expand_axis 0 = 0 ∧
    expand_axis 255 = 65535 ∧ expand_axis v₁ ≤ expand_axis v₂ := by
  refine ⟨?_, by decide, by decide, ?_⟩
  · rw [expand_axis_eq v₁ h₁]
    omega
  · rw [expand_axis_eq v₁ h₁, expand_axis_eq v₂ h₂]
    exact Nat.mul_le_mul_left 257 hle

/-- Witness for C8 at the bytes 3 and 5. -/
theorem claim_C8_witness :
    expand_axis 3 = 256 * 3 + 3 ∧ expand_axis 0 = 0 ∧
    expand_axis 255 = 65535 ∧ expand_axis 3 ≤ expand_axis 5 :=
  claim_C8 3 5 (by decide) (by decide) (by decide)

/-- Claim C9: each of the eight direction codes makes the decoder set exactly
the matching dpad flags (two for the diagonals), and the neutral code or any
other value sets none. -/
theorem claim_C9 (b₁ b₂ hat a₁ a₂ a₃ a₄ : Nat) :
    ∃ st, switch_pro_apply_uart_packet [0xAA, b₁, b₂, hat, a₁, a₂, a₃, a₄] 8 = some st ∧
      (hat = SWITCH_PRO_HAT_UP → st.dpad_up = true ∧ st.dpad_down = false ∧
        st.dpad_left = false ∧ st.dpad_right = false) ∧
      (hat = SWITCH_PRO_HAT_UPRIGHT → st.dpad_up = true ∧ st.dpad_down = false ∧
        st.dpad_left = false ∧ st.dpad_right = true) ∧
      (hat = SWITCH_PRO_HAT_RIGHT → st.dpad_up = false ∧ st.dpad_down = false ∧
        st.dpad_left = false ∧ st.dpad_right = true) ∧
      (hat = SWITCH_PRO_HAT_DOWNRIGHT → st.dpad_up = false ∧ st.dpad_down = true ∧
        st.dpad_left = false ∧ st.dpad_right = true) ∧
      (hat = SWITCH_PRO_HAT_DOWN → st.dpad_up = false ∧ st.dpad_down = true ∧
        st.dpad_left = false ∧ st.dpad_right = false) ∧
      (hat = SWITCH_PRO_HAT_DOWNLEFT → st.dpad_up = false ∧ st.dpad_down = true ∧
        st.dpad_left = true ∧ st.dpad_right = false) ∧
      (hat = SWITCH_PRO_HAT_LEFT → st.dpad_up = false ∧ st.dpad_down = false ∧
        st.dpad_left = true ∧ st.dpad_right = false) ∧
      (hat = SWITCH_PRO_HAT_UPLEFT → st.dpad_up = true ∧ st.dpad_down = false ∧
        st.dpad_left = true ∧ st.dpad_right = false) ∧
      (SWITCH_PRO_HAT_NOTHING ≤ hat → st.dpad_up = false ∧ st.dpad_down = false ∧
        st.dpad_left = false ∧ st.dpad_right = false) := by
  refine ⟨_, rfl, ?_, ?_, ?_, ?_, ?_, ?_, ?_, ?_, ?_⟩ <;> intro h
  · subst h; exact ⟨rfl, rfl, rfl, rfl⟩
  · subst h; exact ⟨rfl, rfl, rfl, rfl⟩
  · subst h; exact ⟨rfl, rfl, rfl, rfl⟩
  · subst h; exact ⟨rfl, rfl, rfl, rfl⟩
  · subst h; exact ⟨rfl, rfl, rfl, rfl⟩
  · subst h; exact ⟨rfl, rfl, rfl, rfl⟩
  · subst h; exact ⟨rfl, rfl, rfl, rfl⟩
  · subst h; exact ⟨rfl, rfl, rfl, rfl⟩
  · have e := apply_hat_of_ge hat make_neutral_state h
    refine ⟨?_, ?_, ?_, ?_⟩
    · show (apply_hat hat make_neutral_state).dpad_up = false
      rw [e]; rfl
    · show (apply_hat hat make_neutral_state).dpad_down = false
      rw [e]; rfl
    · show (apply_hat hat make_neutral_state).dpad_left = false
      rw [e]; rfl
    · show (apply_hat hat make_neutral_state).dpad_right = false
      rw [e]; rfl

/-- The decoded state the spec prescribes for a legacy 8-byte frame
`[0xAA][b₁][b₂][hat][a₁][a₂][a₃][a₄]`: buttons tested against the
little-endian 16-bit value `b₁ + 256 * b₂`, dpad flags from the section 4.1
mapping table, axes bit-replicated to `257 * aᵢ`. -/
def mkDecodedState (b₁ b₂ hat a₁ a₂ a₃ a₄ : Nat) : SwitchInputState :=
  let buttons := b₁ + 256 * b₂
  { dpad_up := (hatTable hat).1
    dpad_down := (hatTable hat).2.1
    dpad_left := (hatTable hat).2.2.1
    dpad_right := (hatTable hat).2.2.2
    button_a := (buttons &&& SWITCH_PRO_MASK_A) != 0
    button_b := (buttons &&& SWITCH_PRO_MASK_B) != 0
    button_x := (buttons &&& SWITCH_PRO_MASK_X) != 0
    button_y := (buttons &&& SWITCH_PRO_MASK_Y) != 0
    button_l := (buttons &&& SWITCH_PRO_MASK_L) != 0
    button_r := (buttons &&& SWITCH_PRO_MASK_R) != 0
    button_zl := (buttons &&& SWITCH_PRO_MASK_ZL) != 0
    button_zr := (buttons &&& SWITCH_PRO_MASK_ZR) != 0
    button_plus := (buttons &&& SWITCH_PRO_MASK_PLUS) != 0
    button_minus := (buttons &&& SWITCH_PRO_MASK_MINUS) != 0
    button_home := (buttons &&& SWITCH_PRO_MASK_HOME) != 0
    button_capture := (buttons &&& SWITCH_PRO_MASK_CAPTURE) != 0
    button_l3 := (buttons &&& SWITCH_PRO_MASK_L3) != 0
    button_r3 := (buttons &&& SWITCH_PRO_MASK_R3) != 0
    lx := 257 * a₁
    ly := 257 * a₂
    rx := 257 * a₃
    ry := 257 * a₄ }

/-- Claim C3: the frame decoder handles both shapes.  (a) A legacy 8-byte
frame led by the 0xAA sentinel decodes to exactly the state prescribed by the
spec (little-endian button mask, section 4.1 dpad table, bit-replicated
axes), while undersized frames and frames not led by the sentinel are
rejected.  (b) The length-delimited shape accepts
`[0xAA][version][payloadLen][payload][trailer]` exactly when the total
length `payloadLen + 4` is within the buffer capacity and at least the
minimum size, returning the payload, and rejects frames violating the
length validation or the sentinel so the stream resynchronizes. -/
theorem claim_C3 :
    (∀ b₁ b₂ hat a₁ a₂ a₃ a₄ : Nat, b₁ < 256 → b₂ < 256 → a₁ < 256 → a₂ < 256 →
      a₃ < 256 → a₄ < 256 →
      switch_pro_apply_uart_packet [0xAA, b₁, b₂, hat, a₁, a₂, a₃, a₄] 8 =
        some (mkDecodedState b₁ b₂ hat a₁ a₂ a₃ a₄)) ∧
    (∀ (packet : List Nat) (len : Nat), len < 8 →
      switch_pro_apply_uart_packet packet len = none) ∧
    (∀ (packet : List Nat) (len : Nat), packet.getD 0 0 ≠ 0xAA →
      switch_pro_apply_uart_packet packet len = none) ∧
    (∀ (version plen : Nat) (payload : List Nat) (trailer capacity : Nat),
      payload.length = plen → 8 ≤ plen + 4 → plen + 4 ≤ capacity →
      decodeCurrentFrame (0xAA :: version :: plen :: (payload ++ [trailer]))
        capacity = some (version, payload)) ∧
    (∀ (version plen : Nat) (payload : List Nat) (trailer capacity : Nat),
      capacity < plen + 4 ∨ plen + 4 < 8 →
      decodeCurrentFrame (0xAA :: version :: plen :: (payload ++ [trailer]))
        capacity = none) ∧
    (∀ (buf : List Nat) (capacity : Nat), buf.getD 0 0 ≠ 0xAA →
      decodeCurrentFrame buf capacity = none) := by
  refine ⟨?_, ?_, ?_, ?_, ?_, ?_⟩
  · intro b₁ b₂ hat a₁ a₂ a₃ a₄ hb₁ hb₂ ha₁ ha₂ ha₃ ha₄
    obtain ⟨hu, hd, hl, hr⟩ := apply_hat_dpad hat
    have hbtn : b₁ ||| b₂ <<< 8 = b₁ + 256 * b₂ := lor_shiftLeft_byte b₁ b₂ hb₁
    simp only [switch_pro_apply_uart_packet, mkDecodedState, List.getD_cons_zero,
      List.getD_cons_succ]
    norm_num
    refine ⟨?_, ?_, ?_, ?_, ?_, ?_, ?_, ?_, ?_, ?_, ?_, ?_, ?_, ?_, ?_, ?_, ?_, ?_,
      ?_, ?_, ?_, ?_⟩ <;>
      first
        | exact hu | exact hd | exact hl | exact hr
        | (rw [hbtn])
        | (rw [expand_axis_eq _ ha₁]) | (rw [expand_axis_eq _ ha₂])
        | (rw [expand_axis_eq _ ha₃]) | (rw [expand_axis_eq _ ha₄])
  · intro packet len h
    simp [switch_pro_apply_uart_packet, h]
  · intro packet len h
    rw [List.getD_eq_getElem?_getD] at h
    simp [switch_pro_apply_uart_packet, h]
  · intro version plen payload trailer capacity hlen hmin hcap
    simp only [decodeCurrentFrame]
    rw [if_pos]
    · rw [List.take_left' hlen]
    · simp [hlen, hmin, hcap]
  · intro version plen payload trailer capacity hbad
    simp only [decodeCurrentFrame]
    rw [if_neg]
    intro hc
    simp only [Bool.and_eq_true, beq_iff_eq, decide_eq_true_eq] at hc
    rcases hc with ⟨⟨⟨-, hcap⟩, hmin⟩, -⟩
    omega
  · intro buf capacity h
    match buf with
    | [] => rfl
    | [x] => rfl
    | [x, y] => rfl
    | x :: y :: z :: rest =>
      have hx : x ≠ 0xAA := by simpa using h
      simp [decodeCurrentFrame, hx]

/-- Witness for C3: the grip-menu legacy frame decodes, an undersized frame
and a wrong sentinel are rejected, and the length-delimited shape accepts a
4-byte payload in a 64-byte buffer while rejecting an oversized length and a
wrong sentinel. -/
theorem claim_C3_witness :
    switch_pro_apply_uart_packet [0xAA, 0x01, 0x00, 0x00, 0x80, 0x80, 0x80, 0x80] 8 =
      some (mkDecodedState 0x01 0x00 0x00 0x80 0x80 0x80 0x80) ∧
    switch_pro_apply_uart_packet [0xAA, 0x01] 2 = none ∧
    switch_pro_apply_uart_packet [0x55, 1, 2, 3, 4, 5, 6, 7] 8 = none ∧
    decodeCurrentFrame (0xAA :: 1 :: 4 :: ([9, 9, 9, 9] ++ [0])) 64 =
      some (1, [9, 9, 9, 9]) ∧
    decodeCurrentFrame (0xAA :: 1 :: 61 :: ([9, 9, 9, 9] ++ [0])) 64 = none ∧
    decodeCurrentFrame [0x55, 1, 4, 9, 9] 64 = none :=
  ⟨claim_C3.1 0x01 0x00 0x00 0x80 0x80 0x80 0x80 (by decide) (by decide)
      (by decide) (by decide) (by decide) (by decide),
   claim_C3.2.1 _ 2 (by decide),
   claim_C3.2.2.1 _ 8 (by decide),
   claim_C3.2.2.2.1 1 4 [9, 9, 9, 9] 0 64 (by decide) (by decide) (by decide),
   claim_C3.2.2.2.2.1 1 61 [9, 9, 9, 9] 0 64 (Or.inl (by decide)),
   claim_C3.2.2.2.2.2 _ 64 (by decide)⟩

/-- Claim C5: the virtual-flash read splits every address into bank and
offset; a bank absent from the directory yields 0xFF filler of the full
requested size, and a mapped bank yields exactly the backing blob's bytes
starting at the offset (stated for reads that stay inside the blob, the
range in which `memcpy` reads defined bytes; C6 records that the code can
also be driven outside it). -/
theorem claim_C5 (address size : Nat) :
    (spi_flash_data (address &&& 0xFFFFFF00) = none →
      read_spi_flash address size = List.replicate size 0xFF) ∧
    (∀ blob : List Nat, spi_flash_data (address &&& 0xFFFFFF00) = some blob →
      (address &&& 0x000000FF) + size ≤ blob.length →
      (read_spi_flash address size).length = size ∧
      ∀ i : Nat, i < size →
        (read_spi_flash address size).getD i 0 =
          blob.getD ((address &&& 0x000000FF) + i) 0) := by
  constructor
  · intro h
    simp [read_spi_flash, h]
  · intro blob hsome hbound
    constructor
    · simp only [read_spi_flash, hsome]
      exact drop_take_length blob _ size hbound
    · intro i hi
      simp only [read_spi_flash, hsome]
      exact drop_take_getD blob _ size i hi

/-- Witness for C5: an unmapped bank returns filler; the user-calibration
bank at 0x8000 returns the blob bytes (the left-stick magic bytes at offset
0x10). -/
theorem claim_C5_witness :
    read_spi_flash 0x5000 3 = List.replicate 3 0xFF ∧
    (read_spi_flash 0x8010 4).length = 4 ∧
    (read_spi_flash 0x8010 4).getD 0 0 =
      user_calibration_data.getD (0x10 + 0) 0 :=
  ⟨(claim_C5 0x5000 3).1 rfl,
   ((claim_C5 0x8010 4).2 user_calibration_data rfl (by decide)).1,
   ((claim_C5 0x8010 4).2 user_calibration_data rfl (by decide)).2 0 (by decide)⟩

/-- Claim C6 is a safety claim the code violates: a host-issued spi-read
with size 30 (inside the documented ≤ 30 command range) at address 0x8030 —
whose bank 0x8000 is mapped to the 63-byte user-calibration blob — asks
`memcpy` for bytes 48..77 of that blob, 15 bytes past its end (an
out-of-bounds read; the list model can only produce the 15 in-bounds
bytes). -/
theorem claim_C6 :
    spi_flash_data (0x8030 &&& 0xFFFFFF00) = some user_calibration_data ∧
    user_calibration_data.length = 63 ∧
    (0x8030 &&& 0x000000FF) + 30 = 78 ∧ ¬ 78 ≤ 63 ∧
    (read_spi_flash 0x8030 30).length = 15 :=
  ⟨rfl, by decide, by decide, by decide, by decide⟩

/-- Claim C7: when building a wire report each raw 16-bit axis sample is
right-shifted by 4 into the 12-bit domain and clamped, and every scaled
output lies within the [min, max] calibration bounds of its stick/axis,
for every raw input value; the Y axes additionally undergo the 16-bit
truncating negation on their way into the report.  The calibration bounds
are abstract here (their parsing lives outside the sources); the spec's
CalibrationRange invariant supplies min ≤ max. -/
theorem claim_C7 (cal : StickCalibration) (st : SwitchInputState)
    (h₁ : cal.leftMinX ≤ cal.leftMaxX) (h₂ : cal.leftMinY ≤ cal.leftMaxY)
    (h₃ : cal.rightMinX ≤ cal.rightMaxX) (h₄ : cal.rightMinY ≤ cal.rightMaxY) :
    (cal.leftMinX ≤ (update_switch_report_sticks cal st).leftX ∧
      (update_switch_report_sticks cal st).leftX ≤ cal.leftMaxX) ∧
    (cal.leftMinY ≤ clamp_axis cal.leftMinY cal.leftMaxY (scale16To12 st.ly) ∧
      clamp_axis cal.leftMinY cal.leftMaxY (scale16To12 st.ly) ≤ cal.leftMaxY) ∧
    (cal.rightMinX ≤ (update_switch_report_sticks cal st).rightX ∧
      (update_switch_report_sticks cal st).rightX ≤ cal.rightMaxX) ∧
    (cal.rightMinY ≤ clamp_axis cal.rightMinY cal.rightMaxY (scale16To12 st.ry) ∧
      clamp_axis cal.rightMinY cal.rightMaxY (scale16To12 st.ry) ≤ cal.rightMaxY) ∧
    (update_switch_report_sticks cal st).leftY =
      neg16 (clamp_axis cal.leftMinY cal.leftMaxY (scale16To12 st.ly)) ∧
    (update_switch_report_sticks cal st).rightY =
      neg16 (clamp_axis cal.rightMinY cal.rightMaxY (scale16To12 st.ry)) :=
  ⟨clamp_axis_mem _ _ _ h₁, clamp_axis_mem _ _ _ h₂,
   clamp_axis_mem _ _ _ h₃, clamp_axis_mem _ _ _ h₄, rfl, rfl⟩

/-- Witness for C7 at the factory bounds [348, 3748] with both axis extremes
(0 and 65535) among the raw samples. -/
theorem claim_C7_witness :
    (348 ≤ (update_switch_report_sticks
        ⟨348, 348, 3748, 3748, 348, 348, 3748, 3748⟩
        { make_neutral_state with lx := 0, ly := 65535, rx := 65535, ry := 0 }).leftX ∧
      (update_switch_report_sticks
        ⟨348, 348, 3748, 3748, 348, 348, 3748, 3748⟩
        { make_neutral_state with lx := 0, ly := 65535, rx := 65535, ry := 0 }).leftX ≤ 3748) ∧
    (348 ≤ clamp_axis 348 3748 (scale16To12 65535) ∧
      clamp_axis 348 3748 (scale16To12 65535) ≤ 3748) ∧
    (348 ≤ (update_switch_report_sticks
        ⟨348, 348, 3748, 3748, 348, 348, 3748, 3748⟩
        { make_neutral_state with lx := 0, ly := 65535, rx := 65535, ry := 0 }).rightX ∧
      (update_switch_report_sticks
        ⟨348, 348, 3748, 3748, 348, 348, 3748, 3748⟩
        { make_neutral_state with lx := 0, ly := 65535, rx := 65535, ry := 0 }).rightX ≤ 3748) ∧
    (348 ≤ clamp_axis 348 3748 (scale16To12 0) ∧
      clamp_axis 348 3748 (scale16To12 0) ≤ 3748) ∧
    (update_switch_report_sticks
        ⟨348, 348, 3748, 3748, 348, 348, 3748, 3748⟩
        { make_neutral_state with lx := 0, ly := 65535, rx := 65535, ry := 0 }).leftY =
      neg16 (clamp_axis 348 3748 (scale16To12 65535)) ∧
    (update_switch_report_sticks
        ⟨348, 348, 3748, 3748, 348, 348, 3748, 3748⟩
        { make_neutral_state with lx := 0, ly := 65535, rx := 65535, ry := 0 }).rightY =
      neg16 (clamp_axis 348 3748 (scale16To12 0)) :=
  claim_C7 ⟨348, 348, 3748, 3748, 348, 348, 3748, 3748⟩
    { make_neutral_state with lx := 0, ly := 65535, rx := 65535, ry := 0 }
    (by decide) (by decide) (by decide) (by decide)

/-- Claim C10: for every 8-byte haptic payload the rumble relay emits an
11-byte frame — header 0xBB, type 0x01, the 8 payload bytes, and a final
checksum byte equal to the sum of the first 10 bytes modulo 256. -/
theorem claim_C10 (rumble : List Nat) (h : rumble.length = 8) :
    (send_rumble_uart_frame rumble).length = 11 ∧
    (send_rumble_uart_frame rumble).getD 0 0 = 0xBB ∧
    (send_rumble_uart_frame rumble).getD 1 0 = 0x01 ∧
    (∀ i : Nat, i < 8 →
      (send_rumble_uart_frame rumble).getD (2 + i) 0 = rumble.getD i 0) ∧
    (send_rumble_uart_frame rumble).getD 10 0 =
      ((send_rumble_uart_frame rumble).take 10).sum % 256 := by
  have htake : rumble.take 8 = rumble := by
    rw [← h]
    exact List.take_length rumble
  have hframe : send_rumble_uart_frame rumble =
      (0xBB :: 0x01 :: rumble) ++
        [List.foldl (fun c b => (c + b) % 256) 0 (0xBB :: 0x01 :: rumble)] := by
    unfold send_rumble_uart_frame
    rw [htake]
  have hlen10 : (0xBB :: 0x01 :: rumble).length = 10 := by simp [h]
  refine ⟨?_, ?_, ?_, ?_, ?_⟩
  · rw [hframe]
    simp [h]
  · rw [hframe]
    rfl
  · rw [hframe]
    rfl
  · intro i hi
    have h2i : 2 + i = i + 1 + 1 := by omega
    rw [hframe, List.cons_append, List.cons_append, h2i, List.getD_cons_succ,
      List.getD_cons_succ, List.getD_eq_getElem?_getD, List.getD_eq_getElem?_getD,
      List.getElem?_append, if_pos (by omega)]
  · rw [hframe, List.getD_eq_getElem?_getD,
      List.getElem?_append_right (by rw [hlen10]), hlen10]
    simp only [Nat.sub_self, List.getElem?_cons_zero, Option.getD_some]
    rw [List.take_left' hlen10,
      foldl_mod256_add (0xBB :: 0x01 :: rumble) 0 (by norm_num)]
    omega

/-- Witness for C10 at the payload 1..8 (the payload byte conjunct
instantiated at index 3). -/
theorem claim_C10_witness :
    (send_rumble_uart_frame [1, 2, 3, 4, 5, 6, 7, 8]).length = 11 ∧
    (send_rumble_uart_frame [1, 2, 3, 4, 5, 6, 7, 8]).getD 0 0 = 0xBB ∧
    (send_rumble_uart_frame [1, 2, 3, 4, 5, 6, 7, 8]).getD 1 0 = 0x01 ∧
    (send_rumble_uart_frame [1, 2, 3, 4, 5, 6, 7, 8]).getD (2 + 3) 0 =
      List.getD [1, 2, 3, 4, 5, 6, 7, 8] 3 0 ∧
    (send_rumble_uart_frame [1, 2, 3, 4, 5, 6, 7, 8]).getD 10 0 =
      ((send_rumble_uart_frame [1, 2, 3, 4, 5, 6, 7, 8]).take 10).sum % 256 := by
  obtain ⟨h1, h2, h3, h4, h5⟩ := claim_C10 [1, 2, 3, 4, 5, 6, 7, 8] (by decide)
  exact ⟨h1, h2, h3, h4 3 (by decide), h5⟩

/-- Claim C2: in any tick entered with a pending command reply queued, no
periodic input report is transmitted (it is deferred), and if the reply is
due and the transport accepts it, the reply is the first transfer handed to
the transport that tick. -/
theorem claim_C2 (now : Nat) (hidReady sendOk : Bool) (body : List Nat)
    (s : DriverState) (hq : s.is_report_queued = true) :
    (∀ e ∈ (switch_pro_task now hidReady sendOk body s).2, e.isInput = false) ∧
    (u32sub now s.last_report_timer > SWITCH_PRO_KEEPALIVE_TIMER → hidReady = true →
      sendOk = true →
      (switch_pro_task now hidReady sendOk body s).2.head? =
        some (HidEvent.reply s.queued_report_id s.report_buffer)) := by
  constructor
  · intro e he
    simp only [switch_pro_task, hq, if_true] at he
    repeat' split at he
    all_goals simp_all [HidEvent.isInput]
    all_goals rcases he with rfl | rfl <;> rfl
  · intro hdue hhid hsend
    simp only [switch_pro_task, hq, if_true, if_pos hdue, hhid, hsend,
      Bool.and_self, if_true]
    split <;> rfl

/-- Witness for C2: a queued reply on report id 5, due at time 10, transport
ready — the reply is the first transfer of the tick. -/
theorem claim_C2_witness :
    (switch_pro_task 10 true true [7]
      { is_ready := true, is_initialized := true, is_report_queued := true,
        queued_report_id := 5, report_buffer := [9], last_report := [],
        last_report_counter := 0, last_report_timer := 0, sr_timestamp := 0,
        device_ident := [] }).2.head? = some (HidEvent.reply 5 [9]) :=
  (claim_C2 10 true true [7]
    { is_ready := true, is_initialized := true, is_report_queued := true,
      queued_report_id := 5, report_buffer := [9], last_report := [],
      last_report_counter := 0, last_report_timer := 0, sr_timestamp := 0,
      device_ident := [] } rfl).2 (by decide) rfl rfl

/-- Counterexample to claim C1 as stated: from a post-handshake state (ready,
nothing queued) with the input state unchanged across N = 3 consecutive due
invocations and the transport always accepting, the driver transmits 3 input
reports, not exactly 1 — the rolling counter stamped into the report's
timestamp byte makes each fresh report differ byte-for-byte from the
snapshot, so the comparison never suppresses a send. -/
theorem claim_C1_counterexample :
    ((runTicks [(10, true, true), (20, true, true), (30, true, true)]
        (List.replicate 62 7)
        { is_ready := true, is_initialized := true, is_report_queued := false,
          queued_report_id := 0, report_buffer := List.replicate 64 0,
          last_report := List.replicate 64 0, last_report_counter := 0,
          last_report_timer := 0, sr_timestamp := 0,
          device_ident := List.replicate 64 0 }).2.filter
      HidEvent.isInput).length = 3 ∧
    ¬ ((runTicks [(10, true, true), (20, true, true), (30, true, true)]
        (List.replicate 62 7)
        { is_ready := true, is_initialized := true, is_report_queued := false,
          queued_report_id := 0, report_buffer := List.replicate 64 0,
          last_report := List.replicate 64 0, last_report_counter := 0,
          last_report_timer := 0, sr_timestamp := 0,
          device_ident := List.replicate 64 0 }).2.filter
      HidEvent.isInput).length = 1 := by
  constructor
  · rfl
  · decide

/-- Claim C1 as amended: after handshake-ready, with nothing queued, a due
tick whose fresh report differs byte-for-byte from the last transmitted
snapshot sends exactly that one report and updates the snapshot on send —
but because the rolling send counter is stamped into the report's timestamp
byte, the next fresh report built from the *unchanged* input already differs
from the new snapshot again, so an unchanged InputState is retransmitted at
every due tick rather than exactly once. -/
theorem claim_C1 (now : Nat) (hidReady sendOk : Bool) (body : List Nat)
    (s : DriverState) (hq : s.is_report_queued = false) (hr : s.is_ready = true)
    (hdue : u32sub now s.last_report_timer > SWITCH_PRO_KEEPALIVE_TIMER)
    (hhid : hidReady = true) (hsend : sendOk = true)
    (hdiff : mkWireReport s.last_report_counter body ≠ s.last_report) :
    (switch_pro_task now hidReady sendOk body s).2 =
      [HidEvent.inputReport (mkWireReport s.last_report_counter body)] ∧
    (switch_pro_task now hidReady sendOk body s).1.last_report =
      mkWireReport s.last_report_counter body ∧
    mkWireReport ((switch_pro_task now hidReady sendOk body s).1.last_report_counter)
        body ≠ (switch_pro_task now hidReady sendOk body s).1.last_report := by
  have key : switch_pro_task now hidReady sendOk body s =
      ({ s with sr_timestamp := s.last_report_counter,
                last_report := mkWireReport s.last_report_counter body,
                last_report_counter := inc_counter s.last_report_counter,
                last_report_timer := now },
        [HidEvent.inputReport (mkWireReport s.last_report_counter body)]) := by
    simp only [switch_pro_task, hq, hr, hhid, hsend]
    simp [hdue, hdiff]
  rw [key]
  refine ⟨rfl, rfl, ?_⟩
  simp only [mkWireReport]
  intro heq
  injection heq with h1 h2
  injection h2 with h3 h4
  exact inc_counter_ne s.last_report_counter h3

/-- Witness for the amended C1: ready state, counter 0, due tick at time 10
with the transport accepting. -/
theorem claim_C1_witness :
    (switch_pro_task 10 true true [7]
      { is_ready := true, is_initialized := true, is_report_queued := false,
        queued_report_id := 0, report_buffer := [], last_report := [],
        last_report_counter := 0, last_report_timer := 0, sr_timestamp := 0,
        device_ident := [] }).2 = [HidEvent.inputReport (mkWireReport 0 [7])] ∧
    (switch_pro_task 10 true true [7]
      { is_ready := true, is_initialized := true, is_report_queued := false,
        queued_report_id := 0, report_buffer := [], last_report := [],
        last_report_counter := 0, last_report_timer := 0, sr_timestamp := 0,
        device_ident := [] }).1.last_report = mkWireReport 0 [7] ∧
    mkWireReport ((switch_pro_task 10 true true [7]
      { is_ready := true, is_initialized := true, is_report_queued := false,
        queued_report_id := 0, report_buffer := [], last_report := [],
        last_report_counter := 0, last_report_timer := 0, sr_timestamp := 0,
        device_ident := [] }).1.last_report_counter) [7] ≠
      (switch_pro_task 10 true true [7]
      { is_ready := true, is_initialized := true, is_report_queued := false,
        queued_report_id := 0, report_buffer := [], last_report := [],
        last_report_counter := 0, last_report_timer := 0, sr_timestamp := 0,
        device_ident := [] }).1.last_report :=
  claim_C1 10 true true [7]
    { is_ready := true, is_initialized := true, is_report_queued := false,
      queued_report_id := 0, report_buffer := [], last_report := [],
      last_report_counter := 0, last_report_timer := 0, sr_timestamp := 0,
      device_ident := [] }
    rfl rfl (by decide) rfl rfl (by decide)

/-- Counterexample to claim C4 as stated: a queued pending reply that is due
at a tick where the transport is not ready (`tud_hid_ready()` false) does
not remain queued — `switch_pro_task` clears the queued flag anyway, so
nothing is handed to the transport this tick and the reply is never
retried. -/
theorem claim_C4_counterexample :
    ({ is_ready := true, is_initialized := true, is_report_queued := true,
       queued_report_id := 5, report_buffer := [9], last_report := [],
       last_report_counter := 0, last_report_timer := 0, sr_timestamp := 0,
       device_ident := [] } : DriverState).is_report_queued = true ∧
    u32sub 10
      ({ is_ready := true, is_initialized := true, is_report_queued := true,
         queued_report_id := 5, report_buffer := [9], last_report := [],
         last_report_counter := 0, last_report_timer := 0, sr_timestamp := 0,
         device_ident := [] } : DriverState).last_report_timer >
      SWITCH_PRO_KEEPALIVE_TIMER ∧
    (switch_pro_task 10 false false [7]
      { is_ready := true, is_initialized := true, is_report_queued := true,
        queued_report_id := 5, report_buffer := [9], last_report := [],
        last_report_counter := 0, last_report_timer := 0, sr_timestamp := 0,
        device_ident := [] }).2 = [] ∧
    (switch_pro_task 10 false false [7]
      { is_ready := true, is_initialized := true, is_report_queued := true,
        queued_report_id := 5, report_buffer := [9], last_report := [],
        last_report_counter := 0, last_report_timer := 0, sr_timestamp := 0,
        device_ident := [] }).1.is_report_queued = false := by
  refine ⟨rfl, by decide, rfl, rfl⟩

/-- Claim C4 as amended: sends the transport cannot currently accept surface
no error and are skipped for the tick; a skipped *periodic input report*
leaves the snapshot and counter untouched, so the identical payload is
transmitted at the next due tick, and a failed *identify* leaves the driver
uninitialized so it is attempted again — but a queued PendingReply that is
due while the transport is not ready is dequeued and dropped, not
retried. -/
theorem claim_C4 :
    (∀ now now₂ : Nat, ∀ sendOk : Bool, ∀ body : List Nat, ∀ s : DriverState,
      s.is_report_queued = false → s.is_ready = true →
      u32sub now s.last_report_timer > SWITCH_PRO_KEEPALIVE_TIMER →
      mkWireReport s.last_report_counter body ≠ s.last_report →
      u32sub now₂ now > SWITCH_PRO_KEEPALIVE_TIMER →
      (switch_pro_task now false sendOk body s).2 = [] ∧
      (switch_pro_task now false sendOk body s).1.last_report = s.last_report ∧
      (switch_pro_task now false sendOk body s).1.last_report_counter =
        s.last_report_counter ∧
      (switch_pro_task now₂ true true body
          (switch_pro_task now false sendOk body s).1).2 =
        [HidEvent.inputReport (mkWireReport s.last_report_counter body)]) ∧
    (∀ now : Nat, ∀ sendOk : Bool, ∀ body : List Nat, ∀ s : DriverState,
      s.is_report_queued = false → s.is_ready = false → s.is_initialized = false →
      (switch_pro_task now false sendOk body s).2 = [] ∧
      (switch_pro_task now false sendOk body s).1.is_initialized = false) ∧
    (∀ now : Nat, ∀ sendOk : Bool, ∀ body : List Nat, ∀ s : DriverState,
      s.is_report_queued = true → s.is_initialized = true →
      u32sub now s.last_report_timer > SWITCH_PRO_KEEPALIVE_TIMER →
      (switch_pro_task now false sendOk body s).2 = [] ∧
      (switch_pro_task now false sendOk body s).1.is_report_queued = false) := by
  refine ⟨?_, ?_, ?_⟩
  · intro now now₂ sendOk body s hq hr hdue hdiff hdue₂
    have key1 : switch_pro_task now false sendOk body s =
        ({ s with sr_timestamp := s.last_report_counter,
                  last_report_timer := now }, []) := by
      simp only [switch_pro_task, hq, hr]
      simp [hdue, hdiff]
    rw [key1]
    refine ⟨rfl, rfl, rfl, ?_⟩
    simp only [switch_pro_task]
    simp [hq, hr, hdue₂, hdiff]
  · intro now sendOk body s hq hr hinit
    simp only [switch_pro_task, hq, hr, hinit]
    simp
  · intro now sendOk body s hq hinit hdue
    simp only [switch_pro_task, hq, hinit]
    simp [hdue]

/-- Witness for the amended C4: a skipped periodic report is resent
identically at time 20, a failed identify leaves the driver uninitialized,
and a due reply with the transport not ready is silently dequeued. -/
theorem claim_C4_witness :
    ((switch_pro_task 10 false true [7]
        { is_ready := true, is_initialized := true, is_report_queued := false,
          queued_report_id := 0, report_buffer := [], last_report := [],
          last_report_counter := 0, last_report_timer := 0, sr_timestamp := 0,
          device_ident := [] }).2 = [] ∧
      (switch_pro_task 10 false true [7]
        { is_ready := true, is_initialized := true, is_report_queued := false,
          queued_report_id := 0, report_buffer := [], last_report := [],
          last_report_counter := 0, last_report_timer := 0, sr_timestamp := 0,
          device_ident := [] }).1.last_report = [] ∧
      (switch_pro_task 10 false true [7]
        { is_ready := true, is_initialized := true, is_report_queued := false,
          queued_report_id := 0, report_buffer := [], last_report := [],
          last_report_counter := 0, last_report_timer := 0, sr_timestamp := 0,
          device_ident := [] }).1.last_report_counter = 0 ∧
      (switch_pro_task 20 true true [7]
          (switch_pro_task 10 false true [7]
            { is_ready := true, is_initialized := true, is_report_queued := false,
              queued_report_id := 0, report_buffer := [], last_report := [],
              last_report_counter := 0, last_report_timer := 0, sr_timestamp := 0,
              device_ident := [] }).1).2 =
        [HidEvent.inputReport (mkWireReport 0 [7])]) ∧
    ((switch_pro_task 10 false true [7]
        { is_ready := false, is_initialized := false, is_report_queued := false,
          queued_report_id := 0, report_buffer := [], last_report := [],
          last_report_counter := 0, last_report_timer := 0, sr_timestamp := 0,
          device_ident := [3] }).2 = [] ∧
      (switch_pro_task 10 false true [7]
        { is_ready := false, is_initialized := false, is_report_queued := false,
          queued_report_id := 0, report_buffer := [], last_report := [],
          last_report_counter := 0, last_report_timer := 0, sr_timestamp := 0,
          device_ident := [3] }).1.is_initialized = false) ∧
    ((switch_pro_task 10 false true [7]
        { is_ready := true, is_initialized := true, is_report_queued := true,
          queued_report_id := 5, report_buffer := [9], last_report := [],
          last_report_counter := 0, last_report_timer := 0, sr_timestamp := 0,
          device_ident := [] }).2 = [] ∧
      (switch_pro_task 10 false true [7]
        { is_ready := true, is_initialized := true, is_report_queued := true,
          queued_report_id := 5, report_buffer := [9], last_report := [],
          last_report_counter := 0, last_report_timer := 0, sr_timestamp := 0,
          device_ident := [] }).1.is_report_queued = false) :=
  ⟨claim_C4.1 10 20 true [7]
      { is_ready := true, is_initialized := true, is_report_queued := false,
        queued_report_id := 0, report_buffer := [], last_report := [],
        last_report_counter := 0, last_report_timer := 0, sr_timestamp := 0,
        device_ident := [] } rfl rfl (by decide) (by decide) (by decide),
   claim_C4.2.1 10 true [7]
      { is_ready := false, is_initialized := false, is_report_queued := false,
        queued_report_id := 0, report_buffer := [], last_report := [],
        last_report_counter := 0, last_report_timer := 0, sr_timestamp := 0,
        device_ident := [3] } rfl rfl rfl,
   claim_C4.2.2 10 true [7]
      { is_ready := true, is_initialized := true, is_report_queued := true,
        queued_report_id := 5, report_buffer := [9], last_report := [],
        last_report_counter := 0, last_report_timer := 0, sr_timestamp := 0,
        device_ident := [] } rfl rfl (by decide)⟩
